import Mathlib

/-!
Verification of the three-fluid-sim solver pipeline against its
specification.  The GLSL fragment shaders and the TypeScript pass/update
logic are shallowly embedded over the rationals: every `texture2D` sample a
fragment can touch is a field of an input structure, GLSL floats become `ℚ`,
GLSL `bool` becomes `Bool`, and the trigonometric primitives of the GPU are
abstracted as function parameters `cosF sinF : ℚ → ℚ` (the embedded code
applies them exactly where the shaders call `cos` / `sin`).
-/

namespace ThreeFluidSim

/-- GLSL `clamp(x, lo, hi)` on rationals. -/
def clampQ (x lo hi : ℚ) : ℚ := max lo (min hi x)

/-- GLSL `mix(a, b, t)` on rationals. -/
def mixQ (a b t : ℚ) : ℚ := a * (1 - t) + b * t

/-- GLSL `ceil` on rationals, returned as a rational. -/
def ceilQ (a : ℚ) : ℚ := ((⌈a⌉ : ℤ) : ℚ)

/-- A GLSL `vec2` of rationals. -/
structure Vec2 where
  x : ℚ
  y : ℚ
deriving DecidableEq

/-- Per-fragment input of the `JacobiIterationsPass` fragment shader: the
uniforms `alpha`, `beta`, `useObstacleMask`, the interpolated `vUV` and the
derivative-computed `texelSize`, and every texture sample the fragment can
read (the obstacle mask at the center and the four neighbours, the previous
iteration at the center and the four neighbours, and the divergence at the
center). -/
structure JacobiInput where
  alpha : ℚ
  beta : ℚ
  uv : Vec2
  texel : Vec2
  useObstacleMask : Bool
  centerMask : ℚ
  maskLeft : ℚ
  maskRight : ℚ
  maskDown : ℚ
  maskUp : ℚ
  center : ℚ
  x0 : ℚ
  x1 : ℚ
  y0 : ℚ
  y1 : ℚ
  div : ℚ
deriving DecidableEq

/-- The fragment shader of `JacobiIterationsPass`
(src/src/passes/JacobiIterationsPass.ts, lines 56-114), embedded statement
by statement: early return 0 inside an obstacle, early return 0 at the
outflow (right) edge, Neumann substitution of the center value for obstacle
neighbours, then the domain-edge substitutions, and finally
`(x0 + x1 + y0 + y1 + alpha * d) * beta`. -/
def jacobiShader (i : JacobiInput) : ℚ :=
  if i.useObstacleMask = true ∧ i.centerMask > 1/2 then 0
  else if i.useObstacleMask = true ∧ i.uv.x > 1 - i.texel.x * (3/2) then 0
  else
    let x0 := if i.useObstacleMask = true ∧ i.maskLeft > 1/2 then i.center else i.x0
    let x1 := if i.useObstacleMask = true ∧ i.maskRight > 1/2 then i.center else i.x1
    let y0 := if i.useObstacleMask = true ∧ i.maskDown > 1/2 then i.center else i.y0
    let y1 := if i.useObstacleMask = true ∧ i.maskUp > 1/2 then i.center else i.y1
    let x0 := if i.useObstacleMask = true ∧ i.uv.x < i.texel.x * (3/2) then i.center else x0
    let x1 := if i.useObstacleMask = true ∧ i.uv.x > 1 - i.texel.x * (3/2) then 0 else x1
    let y0 := if i.useObstacleMask = true ∧ i.uv.y < i.texel.y * (3/2) then i.center else y0
    let y1 := if i.useObstacleMask = true ∧ i.uv.y > 1 - i.texel.y * (3/2) then i.center else y1
    (x0 + x1 + y0 + y1 + i.alpha * i.div) * i.beta

/-- Per-fragment input of the `DivergencePass` fragment shader
(src/unnamed/part_001): `vUV`, `texelSize`, the `useObstacleMask` uniform,
the obstacle-mask samples at the center and the four neighbours, the
velocity at the center, and the sampled neighbour components
(`x0` = left `.x`, `x1` = right `.x`, `y0` = down `.y`, `y1` = up `.y`). -/
structure DivInput where
  uv : Vec2
  texel : Vec2
  useObstacleMask : Bool
  centerMask : ℚ
  maskLeft : ℚ
  maskRight : ℚ
  maskDown : ℚ
  maskUp : ℚ
  vCenter : Vec2
  x0 : ℚ
  x1 : ℚ
  y0 : ℚ
  y1 : ℚ
deriving DecidableEq

/-- The fragment shader of `DivergencePass` (src/unnamed/part_001, lines
52-101), embedded statement by statement. -/
def divergenceShader (i : DivInput) : ℚ :=
  if i.useObstacleMask = true ∧ i.centerMask > 1/2 then 0
  else
    let x0 := if i.useObstacleMask = true ∧ i.maskLeft > 1/2 then i.vCenter.x else i.x0
    let x1 := if i.useObstacleMask = true ∧ i.maskRight > 1/2 then i.vCenter.x else i.x1
    let y0 := if i.useObstacleMask = true ∧ i.maskDown > 1/2 then i.vCenter.y else i.y0
    let y1 := if i.useObstacleMask = true ∧ i.maskUp > 1/2 then i.vCenter.y else i.y1
    let x0 := if i.useObstacleMask = true ∧ i.uv.x < i.texel.x * (3/2) then i.vCenter.x else x0
    let x1 := if i.useObstacleMask = true ∧ i.uv.x > 1 - i.texel.x * (3/2) then i.vCenter.x else x1
    let y0 := if i.useObstacleMask = true ∧ i.uv.y < i.texel.y * (3/2) then i.vCenter.y else y0
    let y1 := if i.useObstacleMask = true ∧ i.uv.y > 1 - i.texel.y * (3/2) then i.vCenter.y else y1
    (x1 - x0 + y1 - y0) * (1/2)

/-- The divergence computation as the specification words it (spec section
4.6 and claim C4): a cell inside an obstacle reports 0; otherwise each
neighbour component that is obstructed or out of the domain at an outer
edge is replaced by the center velocity component, and the result is
`((vx(right) - vx(left)) + (vy(up) - vy(down))) / 2`.  Written from the
spec, to be compared with `divergenceShader`. -/
def divergenceSpecified (i : DivInput) : ℚ :=
  if i.centerMask > 1/2 then 0
  else
    let xl := if i.maskLeft > 1/2 ∨ i.uv.x < i.texel.x * (3/2) then i.vCenter.x else i.x0
    let xr := if i.maskRight > 1/2 ∨ i.uv.x > 1 - i.texel.x * (3/2) then i.vCenter.x else i.x1
    let yd := if i.maskDown > 1/2 ∨ i.uv.y < i.texel.y * (3/2) then i.vCenter.y else i.y0
    let yu := if i.maskUp > 1/2 ∨ i.uv.y > 1 - i.texel.y * (3/2) then i.vCenter.y else i.y1
    ((xr - xl) + (yu - yd)) / 2

/-- Per-fragment input of the `GradientSubstractionPass` fragment shader
(second class of src/src/passes/ObstacleMaskPass.ts): `vUV`, `texelSize`,
the `useObstacleMask` uniform, the obstacle-mask samples, the pressure
samples at the center and the four neighbours, and the velocity at the
center. -/
structure GradInput where
  uv : Vec2
  texel : Vec2
  useObstacleMask : Bool
  centerMask : ℚ
  maskLeft : ℚ
  maskRight : ℚ
  maskDown : ℚ
  maskUp : ℚ
  pCenter : ℚ
  x0 : ℚ
  x1 : ℚ
  y0 : ℚ
  y1 : ℚ
  vel : Vec2
deriving DecidableEq

/-- The fragment shader of `GradientSubstractionPass`
(src/src/passes/ObstacleMaskPass.ts, lines 218-268), embedded statement by
statement: zero velocity inside an obstacle, center-pressure substitution
for obstacle neighbours, the domain-edge substitutions with a Dirichlet 0
at the right (outflow) edge, then `v - 0.5 * (x1 - x0, y1 - y0)`. -/
def gradientSubstractionShader (i : GradInput) : Vec2 :=
  if i.useObstacleMask = true ∧ i.centerMask > 1/2 then ⟨0, 0⟩
  else
    let x0 := if i.useObstacleMask = true ∧ i.maskLeft > 1/2 then i.pCenter else i.x0
    let x1 := if i.useObstacleMask = true ∧ i.maskRight > 1/2 then i.pCenter else i.x1
    let y0 := if i.useObstacleMask = true ∧ i.maskDown > 1/2 then i.pCenter else i.y0
    let y1 := if i.useObstacleMask = true ∧ i.maskUp > 1/2 then i.pCenter else i.y1
    let x0 := if i.useObstacleMask = true ∧ i.uv.x < i.texel.x * (3/2) then i.pCenter else x0
    let x1 := if i.useObstacleMask = true ∧ i.uv.x > 1 - i.texel.x * (3/2) then 0 else x1
    let y0 := if i.useObstacleMask = true ∧ i.uv.y < i.texel.y * (3/2) then i.pCenter else y0
    let y1 := if i.useObstacleMask = true ∧ i.uv.y > 1 - i.texel.y * (3/2) then i.pCenter else y1
    ⟨i.vel.x - (x1 - x0) * (1/2), i.vel.y - (y1 - y0) * (1/2)⟩

/-- The projection computation as the specification words it (spec section
4.8 and claim C5): obstacle-interior cells are forced to zero velocity; the
outward pressure neighbour at the outflow (right) edge is exactly 0, every
other boundary or obstacle neighbour substitutes the center pressure, and
the result is `v - 0.5 * grad(p)` by central differences.  Written from the
spec, to be compared with `gradientSubstractionShader`. -/
def gradientSubstractionSpecified (i : GradInput) : Vec2 :=
  if i.centerMask > 1/2 then ⟨0, 0⟩
  else
    let xl := if i.maskLeft > 1/2 ∨ i.uv.x < i.texel.x * (3/2) then i.pCenter else i.x0
    let xr := if i.uv.x > 1 - i.texel.x * (3/2) then 0
              else if i.maskRight > 1/2 then i.pCenter else i.x1
    let yd := if i.maskDown > 1/2 ∨ i.uv.y < i.texel.y * (3/2) then i.pCenter else i.y0
    let yu := if i.maskUp > 1/2 ∨ i.uv.y > 1 - i.texel.y * (3/2) then i.pCenter else i.y1
    ⟨i.vel.x - (xr - xl) / 2, i.vel.y - (yu - yd) / 2⟩

/-- The literal `3.14159265` the shaders use for pi. -/
def glslPi : ℚ := 314159265 / 100000000

/-- The chevron-obstacle uniforms shared by `ObstacleMaskPass`, the
`BoundaryPass` of src/unnamed/part_000 and `CompositionPass`:
`chevronColumns`, `chevronRows`, `chevronLength`, `chevronWidth`,
`chevronAngle` (degrees), `chevronGap`, `chevronSpacingX`,
`chevronSpacingY`, and the x component of the `aspect` uniform. -/
structure ChevronParams where
  columns : ℕ
  rows : ℕ
  length : ℚ
  width : ℚ
  angle : ℚ
  gap : ℚ
  spacingX : ℚ
  spacingY : ℚ
  aspectX : ℚ
deriving DecidableEq

/-- The `insideRotatedRect` shader helper (ObstacleMaskPass.ts lines
66-85): translate the point to the rectangle frame, rotate by the negative
angle, and compare the rotated coordinates against half-length and
half-width.  The GPU `cos` / `sin` primitives are the parameters `cosF`
and `sinF`. -/
def insideRotatedRect (cosF sinF : ℚ → ℚ) (p c : Vec2)
    (length width angleDeg : ℚ) : ℚ :=
  let angleRad := angleDeg * glslPi / 180
  let cosA := cosF (-angleRad)
  let sinA := sinF (-angleRad)
  let lx := p.x - c.x
  let ly := p.y - c.y
  let rx := lx * cosA - ly * sinA
  let ry := lx * sinA + ly * cosA
  if |rx| ≤ length / 2 ∧ |ry| ≤ width / 2 then 1 else 0

/-- Center x of the first chevron column:
`(aspect.x - columns * spacingX) * 0.5 + spacingX * 0.5`. -/
def chevronStartX (p : ChevronParams) : ℚ :=
  (p.aspectX - (p.columns : ℚ) * p.spacingX) / 2 + p.spacingX / 2

/-- Center y of the first chevron row:
`(1 - rows * spacingY) * 0.5 + spacingY * 0.5`. -/
def chevronStartY (p : ChevronParams) : ℚ :=
  (1 - (p.rows : ℚ) * p.spacingY) / 2 + p.spacingY / 2

/-- Center of the rectangle at a given row and column, including the
alternating-sign gap offset (`gap * 0.5`, negative for even columns). -/
def chevronCenter (p : ChevronParams) (row col : ℕ) : Vec2 :=
  ⟨chevronStartX p + (col : ℚ) * p.spacingX
      + p.gap / 2 * (if col % 2 = 0 then -1 else 1),
    chevronStartY p + (row : ℚ) * p.spacingY⟩

/-- Rotation angle of a column: `chevronAngle` for even columns, its
negation for odd columns (`mod(float(col), 2.0) < 0.5`). -/
def chevronAngleAt (p : ChevronParams) (col : ℕ) : ℚ :=
  if col % 2 = 0 then p.angle else -p.angle

/-- The containment test of one chevron rectangle for a (scaled) sample
point. -/
def chevronRectHit (cosF sinF : ℚ → ℚ) (p : ChevronParams) (uv : Vec2)
    (row col : ℕ) : ℚ :=
  insideRotatedRect cosF sinF uv (chevronCenter p row col) p.length p.width
    (chevronAngleAt p col)

/-- The accumulated `mask` before clamping: the GLSL double loop runs rows
and columns up to the hard bound 20, breaking at `chevronRows` /
`chevronColumns`. -/
def chevronMaskSum (cosF sinF : ℚ → ℚ) (p : ChevronParams) (uv : Vec2) : ℚ :=
  Finset.sum (Finset.range (min p.rows 20)) fun row =>
    Finset.sum (Finset.range (min p.columns 20)) fun col =>
      chevronRectHit cosF sinF p uv row col

/-- The clamped chevron mask, `clamp(mask, 0.0, 1.0)`. -/
def chevronMaskValue (cosF sinF : ℚ → ℚ) (p : ChevronParams) (uv : Vec2) : ℚ :=
  clampQ (chevronMaskSum cosF sinF p uv) 0 1

/-- The sample point lies inside at least one rectangle of the configured
pattern (with the loop bounds of the shader). -/
def chevronHit (cosF sinF : ℚ → ℚ) (p : ChevronParams) (uv : Vec2) : Prop :=
  ∃ row, row < min p.rows 20 ∧
    ∃ col, col < min p.columns 20 ∧ chevronRectHit cosF sinF p uv row col = 1

instance chevronHit.instDecidable (cosF sinF : ℚ → ℚ) (p : ChevronParams)
    (uv : Vec2) : Decidable (chevronHit cosF sinF p uv) :=
  decidable_of_iff
    (∃ row ∈ Finset.range (min p.rows 20),
      ∃ col ∈ Finset.range (min p.columns 20),
        chevronRectHit cosF sinF p uv row col = 1)
    (by simp [chevronHit, Finset.mem_range])

/-- The fragment shader of `ObstacleMaskPass`
(src/src/passes/ObstacleMaskPass.ts lines 87-122): 0 when the pattern is
disabled, otherwise the clamped sum of the rectangle containment tests at
the aspect-scaled sample point (the red channel of the output). -/
def obstacleMaskShader (cosF sinF : ℚ → ℚ) (chevronEnabled : Bool)
    (p : ChevronParams) (uv : Vec2) : ℚ :=
  if chevronEnabled = true then
    chevronMaskValue cosF sinF p ⟨uv.x * p.aspectX, uv.y⟩
  else 0

/-- Per-fragment input of the `BoundaryPass` fragment shader of
src/unnamed/part_000 (the class the render loop instantiates): `vUV`,
`texelSize`, the `flowEnabled` and `chevronEnabled` uniforms, the chevron
uniforms, and the velocity sample at `vUV`. -/
structure BoundaryInput where
  uv : Vec2
  texel : Vec2
  flowEnabled : Bool
  chevronEnabled : Bool
  params : ChevronParams
  vel : Vec2
deriving DecidableEq

/-- The domain-edge mask of the boundary shader (src/unnamed/part_000
lines 977-990): `ceil` indicators of the four edges, with only bottom and
top kept when `flowEnabled`. -/
def boundaryEdgeMask (i : BoundaryInput) : ℚ :=
  let leftEdgeMask := ceilQ (i.texel.x - i.uv.x)
  let bottomEdgeMask := ceilQ (i.texel.y - i.uv.y)
  let rightEdgeMask := ceilQ (i.uv.x - (1 - i.texel.x))
  let topEdgeMask := ceilQ (i.uv.y - (1 - i.texel.y))
  if i.flowEnabled = true then clampQ (bottomEdgeMask + topEdgeMask) 0 1
  else clampQ (leftEdgeMask + bottomEdgeMask + rightEdgeMask + topEdgeMask) 0 1

/-- The combined enforcement mask of the boundary shader: the union
(clamped sum) of the domain-edge mask and the chevron mask. -/
def boundaryCombinedMask (cosF sinF : ℚ → ℚ) (i : BoundaryInput) : ℚ :=
  let chevronMask :=
    if i.chevronEnabled = true then
      chevronMaskValue cosF sinF i.params ⟨i.uv.x * i.params.aspectX, i.uv.y⟩
    else 0
  clampQ (boundaryEdgeMask i + chevronMask) 0 1

/-- The fragment shader of the `BoundaryPass` of src/unnamed/part_000
(lines 976-1033): the velocity sample multiplied by
`mix(1.0, -1.0, mask)`. -/
def boundaryShader (cosF sinF : ℚ → ℚ) (i : BoundaryInput) : Vec2 :=
  let direction := mixQ 1 (-1) (boundaryCombinedMask cosF sinF i)
  ⟨i.vel.x * direction, i.vel.y * direction⟩

/-- The `valueScale` constant shared by the measurement shader and the
readback decoder (`VALUE_SCALE` in src/unnamed/part_000). -/
def VALUE_SCALE : ℚ := 10

/-- The encoding of the `MeasurementPass` fragment shader
(src/src/passes/VelocityFieldPass.ts lines 129-143):
`clamp(value / valueScale + 0.5, 0.0, 1.0)`. -/
def encodeMeasurement (scale x : ℚ) : ℚ := clampQ (x / scale + 1/2) 0 1

/-- Modelled from the spec: the render target of the measurement pass is
`UnsignedByteType`, so the shader output in [0,1] is quantized to 8 bits on
write ("quantized to 8 bits", claim C6; "8-bit encoding", spec section 8);
the byte written is the nearest integer in 0..255.  The quantization
itself happens in the GPU readback path, not in a repository source
file. -/
def quantizeByte (e : ℚ) : ℤ := round (e * 255)

/-- The decoding of `sampleAtPosition` (src/unnamed/part_000 lines
749-757): the byte is normalized by 255 and mapped through
`(encoded - 0.5) * VALUE_SCALE`. -/
def decodeMeasurement (scale : ℚ) (b : ℤ) : ℚ := ((b : ℚ) / 255 - 1/2) * scale

/-- The uniforms of `DivergencePass` that its `update` method can touch,
with their constructor defaults; textures are an abstract type `T`. -/
structure DivUniforms (T : Type) where
  timeDelta : ℚ
  velocity : T
  obstacleMask : T
  useObstacleMask : Bool
deriving DecidableEq

/-- A parameter object passed to `DivergencePass.update`: one optional
entry per key the method tests (`timeDelta`, `density`, `velocity`,
`obstacleMask`, `useObstacleMask`). -/
structure DivArgs (T : Type) where
  timeDelta : Option ℚ
  density : Option ℚ
  velocity : Option T
  obstacleMask : Option T
  useObstacleMask : Option Bool
deriving DecidableEq

/-- The method `DivergencePass.update` (src/unnamed/part_001 lines 111-127),
branch by branch in source order.  The material has no `density` uniform,
so a parameter object with a `density` key makes the JS method read
`.value` of `undefined` and throw after the `timeDelta` branch has already
run; the Boolean result records that the call threw. -/
def updateDivergence {T : Type} (a : DivArgs T) (s : DivUniforms T) :
    DivUniforms T × Bool :=
  let s1 := match a.timeDelta with
    | some v => DivUniforms.mk v s.velocity s.obstacleMask s.useObstacleMask
    | none => s
  match a.density with
  | some _ => (s1, true)
  | none =>
    let s2 := match a.velocity with
      | some v => DivUniforms.mk s1.timeDelta v s1.obstacleMask s1.useObstacleMask
      | none => s1
    let s3 := match a.obstacleMask with
      | some v => DivUniforms.mk s2.timeDelta s2.velocity v s2.useObstacleMask
      | none => s2
    let s4 := match a.useObstacleMask with
      | some v => DivUniforms.mk s3.timeDelta s3.velocity s3.obstacleMask v
      | none => s3
    (s4, false)

/-- Constructor defaults of `DivergencePass` (src/unnamed/part_001 lines
29-34): `timeDelta = 0`, both textures `Texture.DEFAULT_IMAGE` (the
abstract `t0`), `useObstacleMask = false`. -/
def initDivUniforms {T : Type} (t0 : T) : DivUniforms T :=
  DivUniforms.mk 0 t0 t0 false

/-- The uniforms of `JacobiIterationsPass`, with their constructor
defaults `alpha = -1.0` and `beta = 0.25`. -/
structure JacobiUniforms (T : Type) where
  alpha : ℚ
  beta : ℚ
  previousIteration : T
  divergence : T
  obstacleMask : T
  useObstacleMask : Bool
deriving DecidableEq

/-- A parameter object passed to `JacobiIterationsPass.update`: one
optional entry per uniform of the pass.  The method only tests the keys
`previousIteration`, `divergence`, `obstacleMask` and `useObstacleMask`;
`alpha` and `beta` entries are never read. -/
structure JacobiArgs (T : Type) where
  alpha : Option ℚ
  beta : Option ℚ
  previousIteration : Option T
  divergence : Option T
  obstacleMask : Option T
  useObstacleMask : Option Bool
deriving DecidableEq

/-- The method `JacobiIterationsPass.update`
(src/src/passes/JacobiIterationsPass.ts lines 124-138), branch by branch
in source order: only the four handled keys are tested. -/
def updateJacobi {T : Type} (a : JacobiArgs T) (s : JacobiUniforms T) :
    JacobiUniforms T :=
  let s1 := match a.previousIteration with
    | some v => JacobiUniforms.mk s.alpha s.beta v s.divergence s.obstacleMask
        s.useObstacleMask
    | none => s
  let s2 := match a.divergence with
    | some v => JacobiUniforms.mk s1.alpha s1.beta s1.previousIteration v
        s1.obstacleMask s1.useObstacleMask
    | none => s1
  let s3 := match a.obstacleMask with
    | some v => JacobiUniforms.mk s2.alpha s2.beta s2.previousIteration
        s2.divergence v s2.useObstacleMask
    | none => s2
  match a.useObstacleMask with
  | some v => JacobiUniforms.mk s3.alpha s3.beta s3.previousIteration
      s3.divergence s3.obstacleMask v
  | none => s3

/-- Constructor defaults of `JacobiIterationsPass`
(src/src/passes/JacobiIterationsPass.ts lines 29-36): `alpha = -1.0`,
`beta = 0.25`, all textures `Texture.DEFAULT_IMAGE`,
`useObstacleMask = false`. -/
def initJacobiUniforms {T : Type} (t0 : T) : JacobiUniforms T :=
  JacobiUniforms.mk (-1) (1/4) t0 t0 t0 false

/-- The uniforms of `GradientSubstractionPass` that its `update` method
can touch, with their constructor defaults. -/
structure GradUniforms (T : Type) where
  timeDelta : ℚ
  velocity : T
  pressure : T
  obstacleMask : T
  useObstacleMask : Bool
deriving DecidableEq

/-- A parameter object passed to `GradientSubstractionPass.update`: one
optional entry per key the method tests (`timeDelta`, `density`,
`velocity`, `pressure`, `obstacleMask`, `useObstacleMask`). -/
structure GradArgs (T : Type) where
  timeDelta : Option ℚ
  density : Option ℚ
  velocity : Option T
  pressure : Option T
  obstacleMask : Option T
  useObstacleMask : Option Bool
deriving DecidableEq

/-- The method `GradientSubstractionPass.update`
(src/src/passes/ObstacleMaskPass.ts lines 278-297), branch by branch in
source order.  As in `updateDivergence`, the material has no `density`
uniform, so a `density` key throws after the `timeDelta` branch. -/
def updateGradientSubstraction {T : Type} (a : GradArgs T)
    (s : GradUniforms T) : GradUniforms T × Bool :=
  let s1 := match a.timeDelta with
    | some v => GradUniforms.mk v s.velocity s.pressure s.obstacleMask
        s.useObstacleMask
    | none => s
  match a.density with
  | some _ => (s1, true)
  | none =>
    let s2 := match a.velocity with
      | some v => GradUniforms.mk s1.timeDelta v s1.pressure s1.obstacleMask
          s1.useObstacleMask
      | none => s1
    let s3 := match a.pressure with
      | some v => GradUniforms.mk s2.timeDelta s2.velocity v s2.obstacleMask
          s2.useObstacleMask
      | none => s2
    let s4 := match a.obstacleMask with
      | some v => GradUniforms.mk s3.timeDelta s3.velocity s3.pressure v
          s3.useObstacleMask
      | none => s3
    let s5 := match a.useObstacleMask with
      | some v => GradUniforms.mk s4.timeDelta s4.velocity s4.pressure
          s4.obstacleMask v
      | none => s4
    (s5, false)

/-- Constructor defaults of `GradientSubstractionPass`
(src/src/passes/ObstacleMaskPass.ts lines 192-199). -/
def initGradUniforms {T : Type} (t0 : T) : GradUniforms T :=
  GradUniforms.mk 0 t0 t0 t0 false

/-- The uniforms of the `BoundaryPass` of src/src/passes/BoundaryPass.ts
(the variant with a single rectangular obstacle), with their constructor
defaults. -/
structure BoundaryUniforms (T : Type) where
  velocity : T
  flowEnabled : Bool
  obstacleEnabled : Bool
  obstaclePos : Vec2
  obstacleSize : ℚ
  aspect : Vec2
deriving DecidableEq

/-- A parameter object passed to `BoundaryPass.update`
(src/src/passes/BoundaryPass.ts): one optional entry per key the method
tests. -/
structure BoundaryArgs (T : Type) where
  velocity : Option T
  flowEnabled : Option Bool
  obstacleEnabled : Option Bool
  obstaclePos : Option Vec2
  obstacleSize : Option ℚ
  aspect : Option Vec2
deriving DecidableEq

/-- The method `BoundaryPass.update` (src/src/passes/BoundaryPass.ts lines 106-125),
branch by branch in source order; every tested key is an existing
uniform. -/
def updateBoundary {T : Type} (a : BoundaryArgs T) (s : BoundaryUniforms T) :
    BoundaryUniforms T :=
  let s1 := match a.velocity with
    | some v => BoundaryUniforms.mk v s.flowEnabled s.obstacleEnabled
        s.obstaclePos s.obstacleSize s.aspect
    | none => s
  let s2 := match a.flowEnabled with
    | some v => BoundaryUniforms.mk s1.velocity v s1.obstacleEnabled
        s1.obstaclePos s1.obstacleSize s1.aspect
    | none => s1
  let s3 := match a.obstacleEnabled with
    | some v => BoundaryUniforms.mk s2.velocity s2.flowEnabled v
        s2.obstaclePos s2.obstacleSize s2.aspect
    | none => s2
  let s4 := match a.obstaclePos with
    | some v => BoundaryUniforms.mk s3.velocity s3.flowEnabled
        s3.obstacleEnabled v s3.obstacleSize s3.aspect
    | none => s3
  let s5 := match a.obstacleSize with
    | some v => BoundaryUniforms.mk s4.velocity s4.flowEnabled
        s4.obstacleEnabled s4.obstaclePos v s4.aspect
    | none => s4
  match a.aspect with
  | some v => BoundaryUniforms.mk s5.velocity s5.flowEnabled
      s5.obstacleEnabled s5.obstaclePos s5.obstacleSize v
  | none => s5

/-- The uniform state of the three solver passes the render loop feeds
(divergence, pressure, projection). -/
structure SimUniformState (T : Type) where
  div : DivUniforms T
  jacobi : JacobiUniforms T
  grad : GradUniforms T
deriving DecidableEq

/-- The state right after the passes are constructed in
src/unnamed/part_000 (lines 214-216). -/
def initSimState {T : Type} (t0 : T) : SimUniformState T :=
  SimUniformState.mk (initDivUniforms t0) (initJacobiUniforms t0)
    (initGradUniforms t0)

/-- One frame of data flowing into the three passes: whether the
`Simulate` toggle is on, the timestep, the velocity and divergence
textures, the configured iteration count, and the pressure texture
returned by the render target on each iteration of the Jacobi loop. -/
structure FrameCfg (T : Type) where
  simulate : Bool
  dt : ℚ
  vTex : T
  dTex : T
  iterations : ℕ
  pTex : ℕ → T

/-- The `update` calls of the Jacobi loop in `render`
(src/unnamed/part_000 lines 602-606): each iteration passes exactly
`{ previousIteration: p }`. -/
def jacobiLoopUpdates {T : Type} (pTex : ℕ → T) :
    ℕ → JacobiUniforms T → JacobiUniforms T
  | 0, s => s
  | n + 1, s =>
    jacobiLoopUpdates pTex n
      (updateJacobi (JacobiArgs.mk none none (some (pTex n)) none none none) s)

/-- The effect of one `render()` call (src/unnamed/part_000 lines 533-706)
on the uniforms of the three solver passes: when `Simulate` is on,
`velocityDivergencePass.update({ timeDelta, velocity })`,
`pressurePass.update({ divergence })`, the Jacobi loop, and
`pressureSubstractionPass.update({ timeDelta, velocity, pressure })`; no
call mentions `useObstacleMask` or `obstacleMask`.  When `Simulate` is
off, none of the three passes is updated. -/
def frameStep {T : Type} (c : FrameCfg T) (s : SimUniformState T) :
    SimUniformState T :=
  if c.simulate = true then
    let divS := (updateDivergence
      (DivArgs.mk (some c.dt) none (some c.vTex) none none) s.div).1
    let jacS0 := updateJacobi
      (JacobiArgs.mk none none none (some c.dTex) none none) s.jacobi
    let jacS := jacobiLoopUpdates c.pTex c.iterations jacS0
    let gradS := (updateGradientSubstraction
      (GradArgs.mk (some c.dt) none (some c.vTex) (some (c.pTex c.iterations))
        none none) s.grad).1
    SimUniformState.mk divS jacS gradS
  else s

/-- The uniform state of the three solver passes after a sequence of
render-loop frames, starting from the constructor defaults. -/
def renderLoopState {T : Type} (t0 : T) (frames : List (FrameCfg T)) :
    SimUniformState T :=
  frames.foldl (fun s c => frameStep c s) (initSimState t0)

/-- Modelled from the spec: the pressure render target is a double buffer
("each field owns exactly two equally-sized storage buffers ... a step
reads the previous buffer and writes the current buffer", spec section 3);
`RenderTarget.ts` itself is not among the source files of the repository.
Rendering the Jacobi scene once is therefore one whole-grid relaxation,
abstracted as an arbitrary function `step` on pressure fields; the loop of
src/unnamed/part_000 lines 602-606 renders, then feeds the written texture
back as `previousIteration`.  Returns the final pressure together with the
number of renders performed. -/
def pressureSolveLoop {F : Type} (step : F → F) : ℕ → F → F × ℕ
  | 0, prev => (prev, 0)
  | n + 1, prev =>
    let p := step prev
    let r := pressureSolveLoop step n p
    (r.1, r.2 + 1)

/-- Two successive center substitutions in a fragment shader collapse to a
single substitution under the disjunction of their conditions. -/
theorem if_or_subst {c1 c2 : Prop} [Decidable c1] [Decidable c2] (v x : ℚ) :
    (if c2 then v else if c1 then v else x) = if c1 ∨ c2 then v else x := by
  split_ifs <;> first | rfl | tauto

/-- Claim C4: with the obstacle mask in use, the divergence shader computes
exactly the specified boundary-aware central difference: divergence 0
inside an obstacle, center-velocity substitution for obstructed or
out-of-domain neighbours, and `((vx(right) - vx(left)) + (vy(up) - vy(down))) / 2`
otherwise. -/
theorem divergenceShader_matches_specified (i : DivInput)
    (h : i.useObstacleMask = true) :
    divergenceShader i = divergenceSpecified i := by
  simp only [divergenceShader, divergenceSpecified, h, true_and]
  simp only [if_or_subst]
  split_ifs <;> ring

/-- Witness for claim C4 at a concrete fragment: a right-edge cell whose
left neighbour is obstructed. -/
theorem divergenceShader_matches_specified_witness :
    divergenceShader
        ⟨⟨97/100, 1/2⟩, ⟨1/50, 1/50⟩, true, 0, 1, 0, 0, 0, ⟨3, 4⟩, 7, 9, 2, 5⟩ =
      divergenceSpecified
        ⟨⟨97/100, 1/2⟩, ⟨1/50, 1/50⟩, true, 0, 1, 0, 0, 0, ⟨3, 4⟩, 7, 9, 2, 5⟩ :=
  divergenceShader_matches_specified
    ⟨⟨97/100, 1/2⟩, ⟨1/50, 1/50⟩, true, 0, 1, 0, 0, 0, ⟨3, 4⟩, 7, 9, 2, 5⟩ rfl

/-- Claim C5: with the obstacle mask in use, the projection shader computes
exactly the specified boundary-aware gradient subtraction: zero velocity in
obstacle interiors, a Dirichlet 0 for the outward neighbour at the outflow
edge, center-pressure substitution for every other boundary or obstacle
neighbour, and `v - 0.5 * grad(p)` otherwise. -/
theorem gradientSubstractionShader_matches_specified (i : GradInput)
    (h : i.useObstacleMask = true) :
    gradientSubstractionShader i = gradientSubstractionSpecified i := by
  simp only [gradientSubstractionShader, gradientSubstractionSpecified, h, true_and]
  simp only [if_or_subst]
  split_ifs <;> first | rfl | exact congrArg₂ Vec2.mk (by ring) (by ring)

/-- Witness for claim C5 at a concrete fragment: an outflow-edge cell whose
right neighbour is also obstructed. -/
theorem gradientSubstractionShader_matches_specified_witness :
    gradientSubstractionShader
        ⟨⟨99/100, 1/2⟩, ⟨1/50, 1/50⟩, true, 0, 0, 1, 0, 0, 6, 1, 2, 3, 4, ⟨5, 8⟩⟩ =
      gradientSubstractionSpecified
        ⟨⟨99/100, 1/2⟩, ⟨1/50, 1/50⟩, true, 0, 0, 1, 0, 0, 6, 1, 2, 3, 4, ⟨5, 8⟩⟩ :=
  gradientSubstractionShader_matches_specified
    ⟨⟨99/100, 1/2⟩, ⟨1/50, 1/50⟩, true, 0, 0, 1, 0, 0, 6, 1, 2, 3, 4, ⟨5, 8⟩⟩ rfl

theorem ceilQ_indicator (a : ℚ) (h1 : -1 < a) (h2 : a < 1) :
    ceilQ a = if 0 < a then 1 else 0 := by
  unfold ceilQ
  split_ifs with h
  · have hc : ⌈a⌉ = 1 := by
      rw [Int.ceil_eq_iff]
      constructor
      · push_cast; linarith
      · push_cast; linarith
    rw [hc]; norm_num
  · have hc : ⌈a⌉ = 0 := by
      rw [Int.ceil_eq_iff]
      constructor
      · push_cast; linarith
      · push_cast; linarith [not_lt.mp h]
    rw [hc]; norm_num

theorem ceilQ_eval_one (a : ℚ) (h0 : 0 < a) (h1 : a < 1) : ceilQ a = 1 := by
  rw [ceilQ_indicator a (by linarith) h1]
  simp [h0]

theorem ceilQ_eval_zero (a : ℚ) (h0 : a ≤ 0) (h1 : -1 < a) : ceilQ a = 0 := by
  rw [ceilQ_indicator a h1 (by linarith)]
  simp [not_lt.mpr h0]

theorem clampQ01_eq_one_iff (x : ℚ) : clampQ x 0 1 = 1 ↔ 1 ≤ x := by
  unfold clampQ
  rcases le_total 1 x with h | h
  · rw [min_eq_left h]
    norm_num [h]
  · rw [min_eq_right h]
    constructor
    · intro hx
      rcases max_choice 0 x with hm | hm <;> rw [hm] at hx
      · exact absurd hx (by norm_num)
      · exact hx.ge
    · intro hx
      have hx1 : x = 1 := le_antisymm h hx
      rw [hx1]; norm_num

theorem clampQ01_eq_zero_iff (x : ℚ) : clampQ x 0 1 = 0 ↔ x ≤ 0 := by
  unfold clampQ
  rw [max_eq_left_iff]
  constructor
  · intro hx
    rcases min_choice 1 x with hm | hm <;> rw [hm] at hx
    · exact absurd hx (by norm_num)
    · exact hx
  · intro hx
    exact le_trans (min_le_right 1 x) hx

theorem chevronRectHit_eq_zero_or_one (cosF sinF : ℚ → ℚ) (p : ChevronParams)
    (uv : Vec2) (row col : ℕ) :
    chevronRectHit cosF sinF p uv row col = 0
      ∨ chevronRectHit cosF sinF p uv row col = 1 := by
  simp only [chevronRectHit, insideRotatedRect]
  split_ifs
  · right; rfl
  · left; rfl

theorem chevronRectHit_nonneg (cosF sinF : ℚ → ℚ) (p : ChevronParams)
    (uv : Vec2) (row col : ℕ) : 0 ≤ chevronRectHit cosF sinF p uv row col := by
  rcases chevronRectHit_eq_zero_or_one cosF sinF p uv row col with h | h <;>
    rw [h] <;> norm_num

theorem one_le_chevronMaskSum_of_hit (cosF sinF : ℚ → ℚ) (p : ChevronParams)
    (uv : Vec2) (h : chevronHit cosF sinF p uv) :
    1 ≤ chevronMaskSum cosF sinF p uv := by
  obtain ⟨row, hrow, col, hcol, hhit⟩ := h
  unfold chevronMaskSum
  calc (1 : ℚ) = chevronRectHit cosF sinF p uv row col := hhit.symm
    _ ≤ Finset.sum (Finset.range (min p.columns 20)) fun c =>
          chevronRectHit cosF sinF p uv row c :=
        Finset.single_le_sum (fun c _ => chevronRectHit_nonneg cosF sinF p uv row c)
          (Finset.mem_range.mpr hcol)
    _ ≤ Finset.sum (Finset.range (min p.rows 20)) fun r =>
          Finset.sum (Finset.range (min p.columns 20)) fun c =>
            chevronRectHit cosF sinF p uv r c :=
        Finset.single_le_sum
          (fun r _ => Finset.sum_nonneg fun c _ =>
            chevronRectHit_nonneg cosF sinF p uv r c)
          (Finset.mem_range.mpr hrow)

theorem chevronMaskSum_eq_zero_of_not_hit (cosF sinF : ℚ → ℚ)
    (p : ChevronParams) (uv : Vec2) (h : ¬ chevronHit cosF sinF p uv) :
    chevronMaskSum cosF sinF p uv = 0 := by
  unfold chevronMaskSum
  refine Finset.sum_eq_zero fun row hrow => Finset.sum_eq_zero fun col hcol => ?_
  rcases chevronRectHit_eq_zero_or_one cosF sinF p uv row col with h0 | h1
  · exact h0
  · exact absurd ⟨row, Finset.mem_range.mp hrow, col, Finset.mem_range.mp hcol, h1⟩ h

theorem chevronMaskValue_eq_one_iff (cosF sinF : ℚ → ℚ) (p : ChevronParams)
    (uv : Vec2) :
    chevronMaskValue cosF sinF p uv = 1 ↔ chevronHit cosF sinF p uv := by
  unfold chevronMaskValue
  rw [clampQ01_eq_one_iff]
  constructor
  · intro h1
    by_contra hn
    rw [chevronMaskSum_eq_zero_of_not_hit cosF sinF p uv hn] at h1
    norm_num at h1
  · exact one_le_chevronMaskSum_of_hit cosF sinF p uv

theorem chevronMaskValue_eq_zero_iff (cosF sinF : ℚ → ℚ) (p : ChevronParams)
    (uv : Vec2) :
    chevronMaskValue cosF sinF p uv = 0 ↔ ¬ chevronHit cosF sinF p uv := by
  unfold chevronMaskValue
  rw [clampQ01_eq_zero_iff]
  constructor
  · intro h0 hh
    have := one_le_chevronMaskSum_of_hit cosF sinF p uv hh
    linarith
  · intro hn
    rw [chevronMaskSum_eq_zero_of_not_hit cosF sinF p uv hn]

theorem clamp_sum2_indicator (P Q : Prop) [Decidable P] [Decidable Q] :
    clampQ ((if P then (1 : ℚ) else 0) + (if Q then 1 else 0)) 0 1
      = if P ∨ Q then 1 else 0 := by
  split_ifs <;> first | tauto | norm_num [clampQ, max_def, min_def]

theorem clamp_sum4_indicator (P Q R S : Prop)
    [Decidable P] [Decidable Q] [Decidable R] [Decidable S] :
    clampQ ((if P then (1 : ℚ) else 0) + (if Q then 1 else 0)
        + (if R then 1 else 0) + (if S then 1 else 0)) 0 1
      = if P ∨ Q ∨ R ∨ S then 1 else 0 := by
  split_ifs <;> first | tauto | norm_num [clampQ, max_def, min_def]

/-- Claim C8: the obstacle-mask shader outputs 1.0 exactly when the
pattern is enabled and the aspect-scaled sample point lies inside some
rectangle of the configured grid (containment by translation, rotation by
the negative angle, and half-length/half-width comparison, with the
rotation sign alternating by column parity), and 0.0 otherwise; with the
pattern disabled the mask is identically zero. -/
theorem obstacleMaskShader_inside_any_rect (cosF sinF : ℚ → ℚ)
    (enabled : Bool) (p : ChevronParams) (uv : Vec2) :
    obstacleMaskShader cosF sinF enabled p uv =
      if enabled = true ∧ chevronHit cosF sinF p ⟨uv.x * p.aspectX, uv.y⟩
      then 1 else 0 := by
  cases enabled
  · simp [obstacleMaskShader]
  · by_cases hh : chevronHit cosF sinF p ⟨uv.x * p.aspectX, uv.y⟩
    · simp [obstacleMaskShader, hh, (chevronMaskValue_eq_one_iff cosF sinF p _).mpr hh]
    · simp [obstacleMaskShader, hh, (chevronMaskValue_eq_zero_iff cosF sinF p _).mpr hh]

/-- Claim C9: under in-range fragment coordinates, the enforcement mask of
the boundary stage is 1 exactly on the union of the domain-edge cells
(cells within one texel of the top or bottom edge when the flow regime is
enabled, of any of the four edges when it is disabled) and the chevron
obstacle cells, and 0 elsewhere. -/
theorem boundary_enforced_edge_coverage (cosF sinF : ℚ → ℚ) (i : BoundaryInput)
    (hux0 : 0 ≤ i.uv.x) (hux1 : i.uv.x ≤ 1) (huy0 : 0 ≤ i.uv.y) (huy1 : i.uv.y ≤ 1)
    (htx0 : 0 < i.texel.x) (htx1 : i.texel.x < 1)
    (hty0 : 0 < i.texel.y) (hty1 : i.texel.y < 1) :
    boundaryCombinedMask cosF sinF i =
      if (i.flowEnabled = true ∧ (i.uv.y < i.texel.y ∨ 1 - i.texel.y < i.uv.y))
          ∨ (i.flowEnabled = false ∧
              (i.uv.x < i.texel.x ∨ 1 - i.texel.x < i.uv.x ∨ i.uv.y < i.texel.y
                ∨ 1 - i.texel.y < i.uv.y))
          ∨ (i.chevronEnabled = true ∧
              chevronHit cosF sinF i.params ⟨i.uv.x * i.params.aspectX, i.uv.y⟩)
      then 1 else 0 := by
  have hL : ceilQ (i.texel.x - i.uv.x) = if i.uv.x < i.texel.x then 1 else 0 := by
    rw [ceilQ_indicator _ (by linarith) (by linarith)]
    simp only [sub_pos]
  have hB : ceilQ (i.texel.y - i.uv.y) = if i.uv.y < i.texel.y then 1 else 0 := by
    rw [ceilQ_indicator _ (by linarith) (by linarith)]
    simp only [sub_pos]
  have hR : ceilQ (i.uv.x - (1 - i.texel.x)) =
      if 1 - i.texel.x < i.uv.x then 1 else 0 := by
    rw [ceilQ_indicator _ (by linarith) (by linarith)]
    simp only [sub_pos]
  have hT : ceilQ (i.uv.y - (1 - i.texel.y)) =
      if 1 - i.texel.y < i.uv.y then 1 else 0 := by
    rw [ceilQ_indicator _ (by linarith) (by linarith)]
    simp only [sub_pos]
  have hchev : (if i.chevronEnabled = true then
        chevronMaskValue cosF sinF i.params ⟨i.uv.x * i.params.aspectX, i.uv.y⟩
      else 0)
      = if i.chevronEnabled = true ∧
            chevronHit cosF sinF i.params ⟨i.uv.x * i.params.aspectX, i.uv.y⟩
        then 1 else 0 := by
    cases i.chevronEnabled
    · simp
    · by_cases hh : chevronHit cosF sinF i.params ⟨i.uv.x * i.params.aspectX, i.uv.y⟩
      · simp [hh, (chevronMaskValue_eq_one_iff cosF sinF i.params _).mpr hh]
      · simp [hh, (chevronMaskValue_eq_zero_iff cosF sinF i.params _).mpr hh]
  simp only [boundaryCombinedMask, boundaryEdgeMask, hL, hB, hR, hT, hchev]
  cases hf : i.flowEnabled
  · simp only [Bool.false_eq_true, false_and, false_or, if_false, true_and,
      eq_self_iff_true, if_true]
    rw [clamp_sum4_indicator, clamp_sum2_indicator]
    split_ifs <;> first | rfl | tauto
  · simp only [Bool.true_eq_false, false_and, false_or, or_false, true_and,
      eq_self_iff_true, if_true]
    rw [clamp_sum2_indicator, clamp_sum2_indicator]

/-- Witness for claim C9 at a concrete fragment: a left-edge cell with the
flow regime disabled and the pattern disabled. -/
theorem boundary_enforced_edge_coverage_witness :
    boundaryCombinedMask (fun _ => 1) (fun _ => 0)
        (BoundaryInput.mk ⟨1/100, 1/2⟩ ⟨1/50, 1/50⟩ false false
          (ChevronParams.mk 3 8 (15/100) (1/40) 45 0 (13/100) (3/25) 2) ⟨2, 3⟩) =
      if ((false = true ∧ ((1/2 : ℚ) < 1/50 ∨ 1 - 1/50 < (1/2 : ℚ)))
          ∨ (false = false ∧
              ((1/100 : ℚ) < 1/50 ∨ 1 - 1/50 < (1/100 : ℚ) ∨ (1/2 : ℚ) < 1/50
                ∨ 1 - 1/50 < (1/2 : ℚ)))
          ∨ (false = true ∧
              chevronHit (fun _ => 1) (fun _ => 0)
                (ChevronParams.mk 3 8 (15/100) (1/40) 45 0 (13/100) (3/25) 2)
                ⟨(1/100 : ℚ) * 2, 1/2⟩))
      then 1 else 0 :=
  boundary_enforced_edge_coverage (fun _ => 1) (fun _ => 0)
    (BoundaryInput.mk ⟨1/100, 1/2⟩ ⟨1/50, 1/50⟩ false false
      (ChevronParams.mk 3 8 (15/100) (1/40) 45 0 (13/100) (3/25) 2) ⟨2, 3⟩)
    (by norm_num) (by norm_num) (by norm_num) (by norm_num)
    (by norm_num) (by norm_num) (by norm_num) (by norm_num)

/-- Counterexample to claim C2 as stated: with the flow regime disabled
(all four edges closed) and no obstacle, the cell at `uv = (1/100, 1/2)`
with texel size `1/50` lies on the closed left domain edge and carries
velocity `(2, 3)`: its normal component `2` is nonzero, yet after the
boundary stage the tangential component is `-3`, not the unchanged `3`. -/
theorem boundary_tangential_changed_cex :
    ((1 : ℚ)/100 < 1/50)
    ∧ (boundaryShader (fun _ => 1) (fun _ => 0)
        (BoundaryInput.mk ⟨1/100, 1/2⟩ ⟨1/50, 1/50⟩ false false
          (ChevronParams.mk 3 8 (15/100) (1/40) 45 0 (13/100) (3/25) 2)
          ⟨2, 3⟩)).y = -3
    ∧ ((-3 : ℚ) ≠ 3) := by
  refine ⟨by norm_num, ?_, by norm_num⟩
  have hmask : boundaryCombinedMask (fun _ => 1) (fun _ => 0)
      (BoundaryInput.mk ⟨1/100, 1/2⟩ ⟨1/50, 1/50⟩ false false
        (ChevronParams.mk 3 8 (15/100) (1/40) 45 0 (13/100) (3/25) 2)
        ⟨2, 3⟩) = 1 := by
    simp only [boundaryCombinedMask, boundaryEdgeMask]
    rw [ceilQ_eval_one ((1:ℚ)/50 - 1/100) (by norm_num) (by norm_num),
      ceilQ_eval_zero ((1:ℚ)/50 - 1/2) (by norm_num) (by norm_num),
      ceilQ_eval_zero ((1:ℚ)/100 - (1 - 1/50)) (by norm_num) (by norm_num),
      ceilQ_eval_zero ((1:ℚ)/2 - (1 - 1/50)) (by norm_num) (by norm_num)]
    norm_num [clampQ, max_def, min_def]
  simp only [boundaryShader, hmask, mixQ]
  norm_num

/-- Claim C2 (amended): at every cell where the combined enforcement mask
is active, the boundary stage negates the whole velocity vector — the
normal component is negated as claimed, and the tangential component is
negated as well (it is unchanged only when it is zero). -/
theorem boundary_negates_full_velocity (cosF sinF : ℚ → ℚ)
    (i : BoundaryInput) (h : boundaryCombinedMask cosF sinF i = 1) :
    boundaryShader cosF sinF i = ⟨-i.vel.x, -i.vel.y⟩ := by
  simp only [boundaryShader, h, mixQ]
  exact congrArg₂ Vec2.mk (by ring) (by ring)

/-- Witness for amended claim C2 at a concrete fragment: a bottom-edge
cell with the flow regime enabled. -/
theorem boundary_negates_full_velocity_witness :
    boundaryShader (fun _ => 1) (fun _ => 0)
        (BoundaryInput.mk ⟨1/2, 1/100⟩ ⟨1/50, 1/50⟩ true false
          (ChevronParams.mk 3 8 (15/100) (1/40) 45 0 (13/100) (3/25) 2)
          ⟨1, 2⟩) = ⟨-1, -2⟩ :=
  boundary_negates_full_velocity (fun _ => 1) (fun _ => 0)
    (BoundaryInput.mk ⟨1/2, 1/100⟩ ⟨1/50, 1/50⟩ true false
      (ChevronParams.mk 3 8 (15/100) (1/40) 45 0 (13/100) (3/25) 2)
      ⟨1, 2⟩)
    (by
      simp only [boundaryCombinedMask, boundaryEdgeMask]
      rw [ceilQ_eval_one ((1:ℚ)/50 - 1/100) (by norm_num) (by norm_num),
        ceilQ_eval_zero ((1:ℚ)/100 - (1 - 1/50)) (by norm_num) (by norm_num)]
      norm_num [clampQ, max_def, min_def])

/-- Counterexample to claim C1 as stated: at a plain interior cell with
all four neighbour pressures 1 and divergence 0, one Jacobi iteration
outputs `(1 + 1 + 1 + 1 + (-1) * 0) * 0.25 = 1`, while the claimed
formula `(p_left + p_right + p_down + p_up + alpha * divergence) / beta`
with `beta = 0.25` gives 16: the shader multiplies by `beta`, it does not
divide by it. -/
theorem jacobi_divides_by_beta_cex :
    jacobiShader (JacobiInput.mk (-1) (1/4) ⟨1/2, 1/2⟩ ⟨1/100, 1/100⟩ false
        0 0 0 0 0 0 1 1 1 1 0) = 1
    ∧ ((1 + 1 + 1 + 1 + (-1) * 0 : ℚ) / (1/4) = 16)
    ∧ ((1 : ℚ) ≠ 16) := by
  refine ⟨?_, by norm_num, by norm_num⟩
  norm_num [jacobiShader]

/-- Claim C1 (amended): for a non-obstacle, non-outflow-edge cell with the
uniform defaults `alpha = -1`, `beta = 0.25`, one pressure-solve iteration
computes `p = (p_left + p_right + p_down + p_up + alpha * divergence) * beta`
— multiplication by `beta` (equivalently, division by 4), not the claimed
division by `beta` — with obstructed or out-of-domain neighbours
substituted per the boundary rules. -/
theorem jacobi_iteration_update_rule (i : JacobiInput)
    (halpha : i.alpha = -1) (hbeta : i.beta = 1/4)
    (hobs : ¬(i.useObstacleMask = true ∧ i.centerMask > 1/2))
    (hout : ¬(i.useObstacleMask = true ∧ i.uv.x > 1 - i.texel.x * (3/2))) :
    jacobiShader i =
      ((if i.useObstacleMask = true ∧ (i.maskLeft > 1/2 ∨ i.uv.x < i.texel.x * (3/2))
          then i.center else i.x0)
        + (if i.useObstacleMask = true ∧ i.maskRight > 1/2 then i.center else i.x1)
        + (if i.useObstacleMask = true ∧ (i.maskDown > 1/2 ∨ i.uv.y < i.texel.y * (3/2))
          then i.center else i.y0)
        + (if i.useObstacleMask = true ∧ (i.maskUp > 1/2 ∨ i.uv.y > 1 - i.texel.y * (3/2))
          then i.center else i.y1)
        + (-1) * i.div) * (1/4) := by
  by_cases hm : i.useObstacleMask = true
  · simp only [hm, true_and] at hobs hout ⊢
    simp only [jacobiShader, hm, true_and, halpha, hbeta]
    rw [if_neg hobs, if_neg hout]
    simp only [if_or_subst]
    rw [if_neg hout]
  · simp only [Bool.not_eq_true] at hm
    simp only [jacobiShader, hm, Bool.false_eq_true, false_and, if_false,
      halpha, hbeta]

/-- Witness for amended claim C1 at a concrete fragment: a left-edge
fluid cell with the obstacle mask in use; the left neighbour is replaced
by the center pressure 5 and the output is
`(5 + 2 + 3 + 4 + (-1) * 6) * 0.25 = 2`. -/
theorem jacobi_iteration_update_rule_witness :
    jacobiShader (JacobiInput.mk (-1) (1/4) ⟨1/100, 1/2⟩ ⟨1/50, 1/50⟩ true
        0 0 0 0 0 5 7 2 3 4 6) = 2 := by
  have h := jacobi_iteration_update_rule
    (JacobiInput.mk (-1) (1/4) ⟨1/100, 1/2⟩ ⟨1/50, 1/50⟩ true
      0 0 0 0 0 5 7 2 3 4 6)
    rfl rfl (by norm_num) (by norm_num)
  rw [h]
  norm_num

theorem updateJacobi_useMask {T : Type} (a1 a2 : Option ℚ) (p d m : Option T)
    (s : JacobiUniforms T) :
    (updateJacobi (JacobiArgs.mk a1 a2 p d m none) s).useObstacleMask
      = s.useObstacleMask := by
  cases p <;> cases d <;> cases m <;> rfl

theorem updateDivergence_useMask {T : Type} (t : Option ℚ) (v m : Option T)
    (s : DivUniforms T) :
    ((updateDivergence (DivArgs.mk t none v m none) s).1).useObstacleMask
      = s.useObstacleMask := by
  cases t <;> cases v <;> cases m <;> rfl

theorem updateGradientSubstraction_useMask {T : Type} (t : Option ℚ)
    (v p m : Option T) (s : GradUniforms T) :
    ((updateGradientSubstraction (GradArgs.mk t none v p m none) s).1).useObstacleMask
      = s.useObstacleMask := by
  cases t <;> cases v <;> cases p <;> cases m <;> rfl

theorem jacobiLoopUpdates_useMask {T : Type} (pTex : ℕ → T) (n : ℕ)
    (s : JacobiUniforms T) :
    (jacobiLoopUpdates pTex n s).useObstacleMask = s.useObstacleMask := by
  induction n generalizing s with
  | zero => rfl
  | succ k ih =>
    simp only [jacobiLoopUpdates]
    rw [ih, updateJacobi_useMask]

theorem frameStep_useMask {T : Type} (c : FrameCfg T) (s : SimUniformState T) :
    (frameStep c s).div.useObstacleMask = s.div.useObstacleMask
    ∧ (frameStep c s).jacobi.useObstacleMask = s.jacobi.useObstacleMask
    ∧ (frameStep c s).grad.useObstacleMask = s.grad.useObstacleMask := by
  cases hs : c.simulate
  · simp [frameStep, hs]
  · refine ⟨?_, ?_, ?_⟩ <;>
      simp only [frameStep, hs, eq_self_iff_true, if_true]
    · exact updateDivergence_useMask _ _ _ _
    · rw [jacobiLoopUpdates_useMask, updateJacobi_useMask]
    · exact updateGradientSubstraction_useMask _ _ _ _ _

/-- Claim C3: starting from the constructor defaults, after any sequence
of render-loop frames the `useObstacleMask` uniform of `DivergencePass`,
`JacobiIterationsPass` and `GradientSubstractionPass` is still `false`
(the loop never supplies `useObstacleMask` or an `obstacleMask` texture to
these passes), and with that uniform value each of the three shaders
reduces to its plain, substitution-free formula on every fragment — the
obstacle-aware and domain-edge substitution branches never execute in any
reachable state. -/
theorem obstacle_mask_stays_disabled :
    ∀ (T : Type) (t0 : T) (frames : List (FrameCfg T)),
      ((renderLoopState t0 frames).div.useObstacleMask = false
        ∧ (renderLoopState t0 frames).jacobi.useObstacleMask = false
        ∧ (renderLoopState t0 frames).grad.useObstacleMask = false)
      ∧ (∀ (uv texel vC : Vec2) (cm ml mr md mu a0 a1 b0 b1 : ℚ),
          divergenceShader (DivInput.mk uv texel
              ((renderLoopState t0 frames).div.useObstacleMask)
              cm ml mr md mu vC a0 a1 b0 b1)
            = (a1 - a0 + b1 - b0) * (1/2))
      ∧ (∀ (al be : ℚ) (uv texel : Vec2) (cm ml mr md mu ce a0 a1 b0 b1 dv : ℚ),
          jacobiShader (JacobiInput.mk al be uv texel
              ((renderLoopState t0 frames).jacobi.useObstacleMask)
              cm ml mr md mu ce a0 a1 b0 b1 dv)
            = (a0 + a1 + b0 + b1 + al * dv) * be)
      ∧ (∀ (uv texel vl : Vec2) (cm ml mr md mu pc a0 a1 b0 b1 : ℚ),
          gradientSubstractionShader (GradInput.mk uv texel
              ((renderLoopState t0 frames).grad.useObstacleMask)
              cm ml mr md mu pc a0 a1 b0 b1 vl)
            = ⟨vl.x - (a1 - a0) * (1/2), vl.y - (b1 - b0) * (1/2)⟩) := by
  intro T t0 frames
  have hinv : ∀ (fs : List (FrameCfg T)) (s : SimUniformState T),
      s.div.useObstacleMask = false → s.jacobi.useObstacleMask = false →
      s.grad.useObstacleMask = false →
      ((fs.foldl (fun s c => frameStep c s) s).div.useObstacleMask = false
        ∧ (fs.foldl (fun s c => frameStep c s) s).jacobi.useObstacleMask = false
        ∧ (fs.foldl (fun s c => frameStep c s) s).grad.useObstacleMask = false) := by
    intro fs
    induction fs with
    | nil => exact fun s h1 h2 h3 => ⟨h1, h2, h3⟩
    | cons c cs ih =>
      intro s h1 h2 h3
      simp only [List.foldl_cons]
      obtain ⟨p1, p2, p3⟩ := frameStep_useMask c s
      exact ih (frameStep c s) (by rw [p1, h1]) (by rw [p2, h2]) (by rw [p3, h3])
  obtain ⟨h1, h2, h3⟩ := hinv frames (initSimState t0) rfl rfl rfl
  refine ⟨⟨h1, h2, h3⟩, ?_, ?_, ?_⟩
  · intro uv texel vC cm ml mr md mu a0 a1 b0 b1
    rw [show (renderLoopState t0 frames).div.useObstacleMask = false from h1]
    simp [divergenceShader]
  · intro al be uv texel cm ml mr md mu ce a0 a1 b0 b1 dv
    rw [show (renderLoopState t0 frames).jacobi.useObstacleMask = false from h2]
    simp [jacobiShader]
  · intro uv texel vl cm ml mr md mu pc a0 a1 b0 b1
    rw [show (renderLoopState t0 frames).grad.useObstacleMask = false from h3]
    simp [gradientSubstractionShader]

/-- Claim C6: for `|x| < scale/2`, the decode of the 8-bit-quantized
measurement encoding recovers `x` to within half a quantization step
(`scale/510`), hence within one quantization step (`scale/255`); for the
configured `VALUE_SCALE = 10` the bound is below 0.02. -/
theorem measurement_roundtrip (scale x : ℚ) (hs : 0 < scale)
    (hx : |x| < scale / 2) :
    |decodeMeasurement scale (quantizeByte (encodeMeasurement scale x)) - x|
        ≤ scale / 510
    ∧ scale / 510 ≤ scale / 255
    ∧ VALUE_SCALE / 510 ≤ 2 / 100 := by
  obtain ⟨hx1, hx2⟩ := abs_lt.mp hx
  have hns : scale ≠ 0 := ne_of_gt hs
  have h1 : x / scale < 1/2 := by rw [div_lt_iff hs]; linarith
  have h2 : -(1/2) < x / scale := by
    rw [lt_div_iff hs]
    linarith
  have hclamp : encodeMeasurement scale x = x / scale + 1/2 := by
    unfold encodeMeasurement clampQ
    rw [min_eq_right (by linarith), max_eq_right (by linarith)]
  have key : decodeMeasurement scale (quantizeByte (encodeMeasurement scale x)) - x
      = scale / 255 * (((round ((x / scale + 1/2) * 255) : ℤ) : ℚ)
          - (x / scale + 1/2) * 255) := by
    rw [hclamp]
    unfold decodeMeasurement quantizeByte
    field_simp
    ring
  refine ⟨?_, ?_, by norm_num [VALUE_SCALE]⟩
  · rw [key, abs_mul, abs_of_pos (show (0:ℚ) < scale / 255 by positivity)]
    have hr : |((round ((x / scale + 1/2) * 255) : ℤ) : ℚ)
        - (x / scale + 1/2) * 255| ≤ 1/2 := by
      rw [abs_sub_comm]
      exact abs_sub_round ((x / scale + 1/2) * 255)
    calc scale / 255 * |((round ((x / scale + 1/2) * 255) : ℤ) : ℚ)
          - (x / scale + 1/2) * 255|
        ≤ scale / 255 * (1/2) := by
          exact mul_le_mul_of_nonneg_left hr (by positivity)
      _ = scale / 510 := by ring
  · rw [div_le_div_iff (by norm_num) (by norm_num)]
    nlinarith [hs.le]

/-- Witness for claim C6 at the concrete scale 10 and value 3: the
round trip error is within 10/510 < 0.02. -/
theorem measurement_roundtrip_witness :
    |decodeMeasurement 10 (quantizeByte (encodeMeasurement 10 3)) - 3|
        ≤ 10 / 510
    ∧ (10 : ℚ) / 510 ≤ 10 / 255
    ∧ VALUE_SCALE / 510 ≤ 2 / 100 :=
  measurement_roundtrip 10 3 (by norm_num) (by norm_num)

/-- Claim C7: the pressure-solve loop performs exactly its configured
number of relaxation renders — the count returned equals `n` for every
grid transform and every warm-start field, so no residual test can cut it
short — and the result is the `n`-fold iterate of one relaxation applied
to the warm start, the `previousIteration` value left by the previous
step (so consecutive frames compose, the second frame starting from the
final pressure of the first frame). -/
theorem pressure_solve_fixed_iterations :
    (∀ (F : Type) (step : F → F) (n : ℕ) (warmStart : F),
        pressureSolveLoop step n warmStart = (step^[n] warmStart, n))
    ∧ (∀ (F : Type) (step : F → F) (n m : ℕ) (p0 : F),
        pressureSolveLoop step m ((pressureSolveLoop step n p0).1)
          = (step^[m] (step^[n] p0), m)) := by
  have main : ∀ (F : Type) (step : F → F) (n : ℕ) (w : F),
      pressureSolveLoop step n w = (step^[n] w, n) := by
    intro F step n
    induction n with
    | zero => intro w; rfl
    | succ k ih =>
      intro w
      simp only [pressureSolveLoop]
      rw [ih (step w), Function.iterate_succ_apply]
  refine ⟨main, fun F step n m p0 => ?_⟩
  rw [main, main]

/-- Counterexample to claim C10 as stated: calling
`JacobiIterationsPass.update` with a parameter object whose `alpha` key is
present with value 5 changes nothing — the method has no branch for
`alpha`, so the `alpha` uniform stays at `-1` even though its key is
present in the object. -/
theorem update_ignores_alpha_key_cex :
    (updateJacobi (JacobiArgs.mk (some 5) none none none none none)
        (initJacobiUniforms (0 : ℚ))).alpha = -1
    ∧ ((-1 : ℚ) ≠ 5) :=
  ⟨rfl, by norm_num⟩

/-- Claim C10 (amended): for the cited passes, `update` changes exactly
the uniforms whose keys are both present in the parameter object and
handled by that method, and every other uniform keeps its previous value:
`JacobiIterationsPass.update` applies `previousIteration`, `divergence`,
`obstacleMask` and `useObstacleMask` and never touches `alpha` or `beta`;
`BoundaryPass.update` applies all six of its keys;
`GradientSubstractionPass.update` applies its five uniforms when no
`density` key is present, and a present `density` key makes the call
throw after applying only `timeDelta` (the material has no `density`
uniform). -/
theorem update_changes_exactly_handled_keys :
    (∀ (T : Type) (a : JacobiArgs T) (s : JacobiUniforms T),
        updateJacobi a s = JacobiUniforms.mk s.alpha s.beta
          (a.previousIteration.getD s.previousIteration)
          (a.divergence.getD s.divergence)
          (a.obstacleMask.getD s.obstacleMask)
          (a.useObstacleMask.getD s.useObstacleMask))
    ∧ (∀ (T : Type) (a : BoundaryArgs T) (s : BoundaryUniforms T),
        updateBoundary a s = BoundaryUniforms.mk
          (a.velocity.getD s.velocity)
          (a.flowEnabled.getD s.flowEnabled)
          (a.obstacleEnabled.getD s.obstacleEnabled)
          (a.obstaclePos.getD s.obstaclePos)
          (a.obstacleSize.getD s.obstacleSize)
          (a.aspect.getD s.aspect))
    ∧ (∀ (T : Type) (a : GradArgs T) (s : GradUniforms T),
        updateGradientSubstraction a s =
          if a.density.isSome
          then (GradUniforms.mk (a.timeDelta.getD s.timeDelta) s.velocity
              s.pressure s.obstacleMask s.useObstacleMask, true)
          else (GradUniforms.mk (a.timeDelta.getD s.timeDelta)
              (a.velocity.getD s.velocity)
              (a.pressure.getD s.pressure)
              (a.obstacleMask.getD s.obstacleMask)
              (a.useObstacleMask.getD s.useObstacleMask), false)) := by
  refine ⟨?_, ?_, ?_⟩
  · intro T a s
    obtain ⟨a1, a2, p, d, m, u⟩ := a
    cases p <;> cases d <;> cases m <;> cases u <;> rfl
  · intro T a s
    obtain ⟨v, f, oe, op, os, asp⟩ := a
    cases v <;> cases f <;> cases oe <;> cases op <;> cases os <;>
      cases asp <;> rfl
  · intro T a s
    obtain ⟨t, dn, v, p, m, u⟩ := a
    cases dn <;> cases t <;> cases v <;> cases p <;> cases m <;>
      cases u <;> rfl

end ThreeFluidSim
